import Mathlib

/-!
# Verification of the Xilinx video pipeline streaming core (linux-xlnx)

Shallow embedding of the pipeline streaming state machine and stream-routing
protocol of the Xilinx V4L2 drivers:

* `drivers/media/platform/xilinx/xilinx-vip.c` — the generic enable/disable
  streams dispatch wrapper and the connected-streams propagation helper,
  plus the video-format lookup tables, plus the legacy video switch (xsw).
* `drivers/media/platform/xilinx/xilinx-axis-switch.c` — the AXI4-Stream
  switch routing operations (xvsw).
* the Xilinx video DMA driver (xilinx-dma.c) — the pipeline coordinator
  (`xvip_pipeline_start/stop`, `xvip_pipeline_start_dma/stop_dma`).

Modelling conventions: machine integers are `Nat` (unsigned) or `Int`
(C `int` return codes, errors negative); kernel linked lists are Lean lists;
hardware and cross-entity side effects are recorded as explicit event traces,
with fallible external calls (remote subdev enable/disable, branch enable)
modelled by oracle functions giving each call's return code.
-/

/-! ## Constants from the uapi media-controller headers.

`MEDIA_PAD_FL_*` and `MEDIA_LNK_FL_*` come from include/uapi/linux/media.h,
`V4L2_SUBDEV_ROUTE_FL_ACTIVE` from the v4l2-subdev uapi header. Those headers
are part of the kernel tree, outside the extracted driver sources; the values
below are the well-known upstream ones. -/

def MEDIA_PAD_FL_SINK : Nat := 1

def MEDIA_PAD_FL_SOURCE : Nat := 2

def MEDIA_LNK_FL_ENABLED : Nat := 1

def MEDIA_LNK_FL_LINK_TYPE : Nat := 0xf0000000

def MEDIA_LNK_FL_DATA_LINK : Nat := 0

def V4L2_SUBDEV_ROUTE_FL_ACTIVE : Nat := 1

/-- The kernel `BIT()` macro: `1 << n` (streams masks are u64; stream ids are
in practice below 64 so no truncation occurs). -/
def BIT (n : Nat) : Nat := 1 <<< n

/-- One entry of a `v4l2_subdev_krouting` table: an intra-entity route from
`(sink_pad, sink_stream)` to `(source_pad, source_stream)`, with route flags
(`V4L2_SUBDEV_ROUTE_FL_ACTIVE` marks active routes). -/
structure V4l2SubdevRoute where
  sink_pad : Nat
  sink_stream : Nat
  source_pad : Nat
  source_stream : Nat
  flags : Nat
deriving DecidableEq, Repr

/-- The macro `for_each_active_route` iterates only over routes with the ACTIVE flag. -/
def routeActive (r : V4l2SubdevRoute) : Bool :=
  r.flags &&& V4L2_SUBDEV_ROUTE_FL_ACTIVE != 0

/-- A `media_link` in `sd->entity.links`, seen from the local entity `sd`.
`sourceIsLocal` records the C test `link->source->entity == &sd->entity`;
the remote entity is identified by `remoteId`, and `remoteIsSubdev` records
`is_media_entity_v4l2_subdev(remote_pad->entity)` (false for DMA video
nodes). -/
structure MediaLink where
  flags : Nat
  sourceIsLocal : Bool
  sourcePad : Nat
  sinkPad : Nat
  remoteId : Nat
  remoteIsSubdev : Bool
deriving DecidableEq, Repr

/-- The local pad index of a link (`link->source` if the local entity is the
link's source, `link->sink` otherwise). -/
def MediaLink.localPad (l : MediaLink) : Nat :=
  if l.sourceIsLocal then l.sourcePad else l.sinkPad

/-- The remote pad index of a link. -/
def MediaLink.remotePad (l : MediaLink) : Nat :=
  if l.sourceIsLocal then l.sinkPad else l.sourcePad

/-- An `xvip_device` as seen by the dispatch wrapper: its pads (flags per pad
index, in index order), its links, and the optional per-device
`xvip_device_ops.enable_streams` / `disable_streams` hooks. A hook is
modelled by the return code it produces for a `(pad, streams_mask)` call. -/
structure XvipSubdev where
  padFlagsList : List Nat
  links : List MediaLink
  enable_streams_op : Option (Nat → Nat → Int)
  disable_streams_op : Option (Nat → Nat → Int)

/-- Events recorded by the dispatch wrapper: local device hook invocations and
remote per-link `v4l2_subdev_enable_streams` / `disable_streams` calls. -/
inductive SEvent where
  | deviceEnable (pad streams_mask : Nat)
  | deviceDisable (pad streams_mask : Nat)
  | remoteEnable (ent pad streams_mask : Nat)
  | remoteDisable (ent pad streams_mask : Nat)
deriving DecidableEq, Repr

/-- A remote enable/disable call selected by the propagation step:
`v4l2_subdev_enable_streams(remote_sd, remote_pad->index, link_streams)`
(or the disable counterpart). -/
structure RemoteCall where
  ent : Nat
  pad : Nat
  streams : Nat
deriving DecidableEq, Repr

/-- Behaviour of the remote subdevices: the return code of
`v4l2_subdev_enable_streams` (first argument `true`) or
`v4l2_subdev_disable_streams` (first argument `false`) on
(entity, pad, streams mask). -/
abbrev RemoteOracle := Bool → Nat → Nat → Nat → Int

/-- Point update used for the `streams` array of
`__xvip_enable_connected_streams`: `streams[p] |= v`. -/
def updOr (s : Nat → Nat) (p v : Nat) : Nat → Nat :=
  fun q => if q = p then s p ||| v else s q

/-- One iteration of the `for_each_active_route` loop of
`__xvip_enable_connected_streams`: a route whose sink is `(pad, s)` with `s`
in `streams_mask` marks the route's source pad/stream, and symmetrically for
a route whose source is `(pad, s)`. -/
def collectRouteStep (pad streams_mask : Nat) (r : V4l2SubdevRoute)
    (s : Nat → Nat) : Nat → Nat :=
  let s1 :=
    if r.sink_pad = pad ∧ Nat.testBit streams_mask r.sink_stream then
      updOr s r.source_pad (BIT r.source_stream)
    else s
  if r.source_pad = pad ∧ Nat.testBit streams_mask r.source_stream then
    updOr s1 r.sink_pad (BIT r.sink_stream)
  else s1

/-- The `streams` array computed by `__xvip_enable_connected_streams` when a
routing table is in effect (`state != NULL`): scan the active routes of
`state->routing`. The array (indexed by pad) is modelled as `Nat → Nat`,
zero-initialised as by `kcalloc`. -/
def collectRouted (pad streams_mask : Nat) (routes : List V4l2SubdevRoute) :
    Nat → Nat :=
  routes.foldl
    (fun s r => if routeActive r then collectRouteStep pad streams_mask r s else s)
    (fun _ => 0)

/-- The `streams` array computed by `__xvip_enable_connected_streams` in the
legacy case (`state == NULL`): every pad whose flags differ from the local
pad's flags by exactly `MEDIA_PAD_FL_SINK | MEDIA_PAD_FL_SOURCE` (i.e. the
opposite sink/source polarity) gets the full `streams_mask`
(`media_entity_for_each_pad` iterates pads in index order). -/
def collectLegacy (padFlagsList : List Nat) (pad streams_mask : Nat) :
    Nat → Nat :=
  (List.range padFlagsList.length).foldl
    (fun s i =>
      if (padFlagsList.getD pad 0) ^^^ (padFlagsList.getD i 0) =
          (MEDIA_PAD_FL_SINK ||| MEDIA_PAD_FL_SOURCE) then
        fun q => if q = i then streams_mask else s q
      else s)
    (fun _ => 0)

/-- The per-pad stream selection of `__xvip_enable_connected_streams`:
route-table based when a state is given, legacy whole-pad fallback
otherwise. -/
def collectStreams (sd : XvipSubdev) (state : Option (List V4l2SubdevRoute))
    (pad streams_mask : Nat) : Nat → Nat :=
  match state with
  | some routes => collectRouted pad streams_mask routes
  | none => collectLegacy sd.padFlagsList pad streams_mask

/-- The list of remote calls selected by the link loop of
`__xvip_enable_connected_streams`, in `sd->entity.links` order. A link is
followed when it is enabled, is a data link, its local pad has a non-empty
stream selection, and the remote entity is a V4L2 subdev; the call carries
the local pad's collected streams. (The C code interleaves selection and
invocation; the two are split here, with invocation in
`runRemoteCalls`, because call results do not influence selection.) -/
def __xvip_connected_calls (sd : XvipSubdev)
    (state : Option (List V4l2SubdevRoute)) (pad streams_mask : Nat) :
    List RemoteCall :=
  let streams := collectStreams sd state pad streams_mask
  sd.links.filterMap fun l =>
    if l.flags &&& MEDIA_LNK_FL_ENABLED = 0 then none
    else if l.flags &&& MEDIA_LNK_FL_LINK_TYPE ≠ MEDIA_LNK_FL_DATA_LINK then none
    else if streams l.localPad = 0 then none
    else if ¬ l.remoteIsSubdev then none
    else some ⟨l.remoteId, l.remotePad, streams l.localPad⟩

/-- The trace event of one remote call: `v4l2_subdev_enable_streams` or
`v4l2_subdev_disable_streams` on the remote entity. -/
def remoteEvent (enable : Bool) (c : RemoteCall) : SEvent :=
  if enable then SEvent.remoteEnable c.ent c.pad c.streams
  else SEvent.remoteDisable c.ent c.pad c.streams

/-- Perform the selected remote calls in order, stopping at the first call
returning a non-zero code (the `if (ret) break;` in the link loop of
`__xvip_enable_connected_streams`). Returns the first error (0 if none) and
the trace of calls actually issued. -/
def runRemoteCalls (remote : RemoteOracle) (enable : Bool) :
    List RemoteCall → Int × List SEvent
  | [] => (0, [])
  | c :: cs =>
    let r := remote enable c.ent c.pad c.streams
    if r ≠ 0 then (r, [remoteEvent enable c])
    else
      let rest := runRemoteCalls remote enable cs
      (rest.1, remoteEvent enable c :: rest.2)

/-- The helper `__xvip_enable_connected_streams(sd, state, pad, streams_mask, enable)`:
select the remote pads/streams and enable or disable them on the connected
subdevs, stopping at the first failure. -/
def __xvip_enable_connected_streams (sd : XvipSubdev)
    (state : Option (List V4l2SubdevRoute)) (pad streams_mask : Nat)
    (enable : Bool) (remote : RemoteOracle) : Int × List SEvent :=
  runRemoteCalls remote enable (__xvip_connected_calls sd state pad streams_mask)

/-- Wrapper `xvip_enable_connected_streams`. -/
def xvip_enable_connected_streams (sd : XvipSubdev)
    (state : Option (List V4l2SubdevRoute)) (pad streams_mask : Nat)
    (remote : RemoteOracle) : Int × List SEvent :=
  __xvip_enable_connected_streams sd state pad streams_mask true remote

/-- Wrapper `xvip_disable_connected_streams`. -/
def xvip_disable_connected_streams (sd : XvipSubdev)
    (state : Option (List V4l2SubdevRoute)) (pad streams_mask : Nat)
    (remote : RemoteOracle) : Int × List SEvent :=
  __xvip_enable_connected_streams sd state pad streams_mask false remote

/-- Dispatch wrapper `xvip_enable_streams`: call the device's
`enable_streams` hook (when implemented) and return its error on failure;
then propagate to connected subdevs; on propagation failure, roll the device
hook back by calling `disable_streams` (when implemented, result discarded)
and return the propagation error. Returns the result code and the trace of
hook and remote calls in invocation order. -/
def xvip_enable_streams (sd : XvipSubdev)
    (state : Option (List V4l2SubdevRoute)) (pad streams_mask : Nat)
    (remote : RemoteOracle) : Int × List SEvent :=
  let devTrace : List SEvent :=
    match sd.enable_streams_op with
    | some _ => [SEvent.deviceEnable pad streams_mask]
    | none => []
  let devRet : Int :=
    match sd.enable_streams_op with
    | some h => h pad streams_mask
    | none => 0
  if devRet ≠ 0 then (devRet, devTrace)
  else
    let p := xvip_enable_connected_streams sd state pad streams_mask remote
    if p.1 ≠ 0 then
      match sd.disable_streams_op with
      | some _ => (p.1, devTrace ++ p.2 ++ [SEvent.deviceDisable pad streams_mask])
      | none => (p.1, devTrace ++ p.2)
    else (0, devTrace ++ p.2)

/-- Dispatch wrapper `xvip_disable_streams`: propagate the
disable to connected subdevs first, and — only if propagation succeeded —
call the device's `disable_streams` hook (when implemented), returning its
result. On propagation failure the propagation error is returned
immediately, without invoking the device hook (`if (ret) return ret;`). -/
def xvip_disable_streams (sd : XvipSubdev)
    (state : Option (List V4l2SubdevRoute)) (pad streams_mask : Nat)
    (remote : RemoteOracle) : Int × List SEvent :=
  let p := xvip_disable_connected_streams sd state pad streams_mask remote
  if p.1 ≠ 0 then (p.1, p.2)
  else
    match sd.disable_streams_op with
    | some h => (h pad streams_mask, p.2 ++ [SEvent.deviceDisable pad streams_mask])
    | none => (0, p.2)

/-! ## Pipeline coordinator (xilinx-dma.c)

`xvip_pipeline_start/stop` and `xvip_pipeline_start_dma/stop_dma` orchestrate
the ordered start/stop of the DMA engines and pipeline branches. The DMA
engines of a pipeline are kept in `pipe->dmas`; `xvip_pipeline_for_each_dma`
filters them by `video.vfl_dir` (`VFL_DIR_RX` for output/capture engines,
`VFL_DIR_TX` for input/output engines).

`xvip_dma_start` calls `dma_async_issue_pending` and always returns 0 in this
code; `xvip_pipeline_enable_branch` can fail (`-ENXIO` when the remote pad
has no subdev, or the error of `v4l2_subdev_enable_streams`), so its return
code is taken from an oracle. `xvip_dma_stop` and
`xvip_pipeline_disable_branch` results are ignored by the stop and rollback
paths. All hardware calls are recorded as events. -/

/-- DMA engine direction: `VFL_DIR_RX` (output/capture) or `VFL_DIR_TX`
(input/playback). -/
inductive VflDir where
  | rx
  | tx
deriving DecidableEq, Repr

/-- An `xvip_dma` member of a pipeline's `dmas` list. -/
structure XvipDma where
  id : Nat
  dir : VflDir
deriving DecidableEq, Repr

/-- An `xvip_pipeline`: the member DMA engines (in `pipe->dmas` list order),
the number of input/output DMA engines found by the graph walk of
`xvip_pipeline_init` (which guarantees `num_inputs + num_outputs >= 1`, else
`-EPIPE`), and the two per-direction streaming counters. -/
structure XvipPipeline where
  dmas : List XvipDma
  num_inputs : Nat
  num_outputs : Nat
  input_stream_count : Nat
  output_stream_count : Nat
deriving DecidableEq, Repr

/-- The iteration `xvip_pipeline_for_each_dma(pipe, dma, VFL_DIR_RX)`: the output DMA
engines, in list order. -/
def rxDmas (pipe : XvipPipeline) : List XvipDma :=
  pipe.dmas.filter (fun d => d.dir == VflDir.rx)

/-- The iteration `xvip_pipeline_for_each_dma(pipe, dma, VFL_DIR_TX)`: the input DMA
engines, in list order. -/
def txDmas (pipe : XvipPipeline) : List XvipDma :=
  pipe.dmas.filter (fun d => d.dir == VflDir.tx)

/-- Hardware events of the pipeline coordinator, in invocation order:
`xvip_dma_start`, `xvip_dma_stop`, `xvip_pipeline_enable_branch`,
`xvip_pipeline_disable_branch` on the DMA engine with the given id. -/
inductive PEvent where
  | dmaStart (id : Nat)
  | dmaStop (id : Nat)
  | branchEnable (id : Nat)
  | branchDisable (id : Nat)
deriving DecidableEq, Repr

/-- Return codes of the fallible external calls made by the coordinator:
`enableBranch d` is the result of `xvip_pipeline_enable_branch` for the
branch adjacent to DMA engine `d` (0 success, negative errno otherwise);
`disableBranch d` likewise for `xvip_pipeline_disable_branch` (its result is
ignored by every caller on the stop/rollback paths). -/
structure PipeOracle where
  enableBranch : Nat → Int
  disableBranch : Nat → Int

/-- The adapter `xvip_dma_start` merely calls `dma_async_issue_pending` and returns 0:
in this code starting a DMA engine cannot fail. -/
def xvip_dma_start_ret : XvipDma → Int := fun _ => 0

/-- Run a fallible call over a DMA list in order, stopping at the first
non-zero return (the `if (ret) goto ...;` pattern of the start loops).
Returns `(ret, attempted, succeeded)` where `attempted` is the list of
engines on which the call was issued (including the failing one) and
`succeeded` the prefix that returned 0. -/
def runPhase (f : XvipDma → Int) : List XvipDma → Int × List XvipDma × List XvipDma
  | [] => (0, [], [])
  | d :: ds =>
    let r := f d
    if r ≠ 0 then (r, [d], [])
    else
      let rest := runPhase f ds
      (rest.1, d :: rest.2.1, d :: rest.2.2)

/-- Function `xvip_pipeline_start`: start all output (RX) DMA engines, then enable all
output branches, then start all input (TX) DMA engines. On failure, unwind
with the `err_input`/`err_branch`/`err_output` labels: each
`list_for_each_entry_continue_reverse` walks backwards from the failed
element, and after it terminates at the list head the next label's loop
continues backwards from the tail, i.e. over the whole (fully processed)
earlier phase. Returns the result code and the hardware event trace. -/
def xvip_pipeline_start (pipe : XvipPipeline) (ora : PipeOracle) :
    Int × List PEvent :=
  let rx := rxDmas pipe
  let tx := txDmas pipe
  let p1 := runPhase xvip_dma_start_ret rx
  if p1.1 ≠ 0 then
    -- err_output (reached with only a prefix of rx started)
    (p1.1, p1.2.1.map (fun d => PEvent.dmaStart d.id) ++
           p1.2.2.reverse.map (fun d => PEvent.dmaStop d.id))
  else
    let p2 := runPhase (fun d => ora.enableBranch d.id) rx
    if p2.1 ≠ 0 then
      -- err_branch, falling through to err_output over all of rx
      (p2.1, rx.map (fun d => PEvent.dmaStart d.id) ++
             p2.2.1.map (fun d => PEvent.branchEnable d.id) ++
             p2.2.2.reverse.map (fun d => PEvent.branchDisable d.id) ++
             rx.reverse.map (fun d => PEvent.dmaStop d.id))
    else
      let p3 := runPhase xvip_dma_start_ret tx
      if p3.1 ≠ 0 then
        -- err_input, falling through to err_branch and err_output over all of rx
        (p3.1, rx.map (fun d => PEvent.dmaStart d.id) ++
               rx.map (fun d => PEvent.branchEnable d.id) ++
               p3.2.1.map (fun d => PEvent.dmaStart d.id) ++
               p3.2.2.reverse.map (fun d => PEvent.dmaStop d.id) ++
               rx.reverse.map (fun d => PEvent.branchDisable d.id) ++
               rx.reverse.map (fun d => PEvent.dmaStop d.id))
      else
        (0, rx.map (fun d => PEvent.dmaStart d.id) ++
            rx.map (fun d => PEvent.branchEnable d.id) ++
            tx.map (fun d => PEvent.dmaStart d.id))

/-- Function `xvip_pipeline_stop`: stop all input (TX) DMA engines, disable all output
branches, stop all output (RX) DMA engines. There is no meaningful way to
handle errors when disabling: every call is issued unconditionally, results
are ignored, and the function returns no status (`void`). The oracle
parameter stands for the (ignored) branch-disable return codes. -/
def xvip_pipeline_stop (pipe : XvipPipeline) (_ora : PipeOracle) :
    List PEvent :=
  (txDmas pipe).map (fun d => PEvent.dmaStop d.id) ++
  (rxDmas pipe).map (fun d => PEvent.branchDisable d.id) ++
  (rxDmas pipe).map (fun d => PEvent.dmaStop d.id)

/-- The process-wide `xvip_dma_multi_out_mode` module parameter. -/
inductive MultiOutMode where
  | sync
  | async
deriving DecidableEq, Repr

/-- Increment the streaming counter of the DMA engine's direction
(`output_stream_count` for RX, `input_stream_count` for TX). -/
def incrStreamCount (pipe : XvipPipeline) (dma : XvipDma) : XvipPipeline :=
  match dma.dir with
  | VflDir.rx => { pipe with output_stream_count := pipe.output_stream_count + 1 }
  | VflDir.tx => { pipe with input_stream_count := pipe.input_stream_count + 1 }

/-- Decrement the streaming counter of the DMA engine's direction. The
counters are C unsigned ints; `Nat` truncated subtraction coincides with the
C behaviour whenever the counter is positive, which holds whenever a
started DMA engine is being stopped. -/
def decrStreamCount (pipe : XvipPipeline) (dma : XvipDma) : XvipPipeline :=
  match dma.dir with
  | VflDir.rx => { pipe with output_stream_count := pipe.output_stream_count - 1 }
  | VflDir.tx => { pipe with input_stream_count := pipe.input_stream_count - 1 }

/-- Function `xvip_pipeline_start_dma`: in synchronous mode, when the
about-to-be-incremented total of the streaming counters equals
`num_inputs + num_outputs - 1` (this is the last engine to start), run the
full-pipeline start; on `ret < 0` return without touching the counters,
otherwise increment the caller's direction counter. (`num_inputs +
num_outputs - 1` uses C unsigned arithmetic; `Nat` truncated subtraction
coincides with it whenever the pipeline has at least one DMA engine, which
`xvip_pipeline_init` guarantees by returning `-EPIPE` otherwise.) In
asynchronous mode, start only this engine and enable only its own branch,
stopping the engine again if the branch enable fails. Returns the result
code, the updated pipeline and the hardware event trace. -/
def xvip_pipeline_start_dma (mode : MultiOutMode) (pipe : XvipPipeline)
    (dma : XvipDma) (ora : PipeOracle) : Int × XvipPipeline × List PEvent :=
  match mode with
  | MultiOutMode.sync =>
    let p :=
      if pipe.input_stream_count + pipe.output_stream_count =
          pipe.num_inputs + pipe.num_outputs - 1 then
        xvip_pipeline_start pipe ora
      else (0, [])
    if p.1 < 0 then (p.1, pipe, p.2)
    else (p.1, incrStreamCount pipe dma, p.2)
  | MultiOutMode.async =>
    let r1 := xvip_dma_start_ret dma
    if r1 ≠ 0 then (r1, pipe, [PEvent.dmaStart dma.id])
    else
      let r2 := ora.enableBranch dma.id
      if r2 ≠ 0 then
        (r2, pipe, [PEvent.dmaStart dma.id, PEvent.branchEnable dma.id,
                    PEvent.dmaStop dma.id])
      else (0, pipe, [PEvent.dmaStart dma.id, PEvent.branchEnable dma.id])

/-- Function `xvip_pipeline_stop_dma`: in synchronous mode, decrement the caller's
direction counter first, then, when the decremented total equals
`num_inputs + num_outputs - 1` (the pipeline is no longer fully started),
run the full-pipeline stop. In asynchronous mode, disable only this engine's
branch and stop only this engine. Returns no status (`void` in C): only the
updated pipeline and the hardware event trace. -/
def xvip_pipeline_stop_dma (mode : MultiOutMode) (pipe : XvipPipeline)
    (dma : XvipDma) (ora : PipeOracle) : XvipPipeline × List PEvent :=
  match mode with
  | MultiOutMode.sync =>
    let pipe' := decrStreamCount pipe dma
    if pipe'.input_stream_count + pipe'.output_stream_count =
        pipe'.num_inputs + pipe'.num_outputs - 1 then
      (pipe', xvip_pipeline_stop pipe' ora)
    else (pipe', [])
  | MultiOutMode.async =>
    (pipe, [PEvent.branchDisable dma.id, PEvent.dmaStop dma.id])

/-! ## Switch routing (xilinx-axis-switch.c `xvsw_*`, xilinx-vip.c `xsw_*`)

The routing tables are validated by the V4L2 core helper
`v4l2_subdev_routing_validate(subdev, routing, disallow)` and installed by
`v4l2_subdev_set_routing_with_fmt`; both are framework substrate outside
this repository's drivers, so validation is modelled by an oracle
`validate routing disallow` giving the helper's return code, and a
successful call installs the requested table. -/

/-- Linux errno values used by this code. Errors are returned as `-E…`. -/
def EBUSY : Int := 16

def EINVAL : Int := 22

/-- The `enum v4l2_subdev_routing_restriction` bits (framework header
include/media/v4l2-subdev.h, outside the extracted sources; used opaquely
as the `disallow` argument of the validation oracle). -/
def V4L2_SUBDEV_ROUTING_NO_1_TO_N : Nat := 1

def V4L2_SUBDEV_ROUTING_NO_N_TO_1 : Nat := 2

def V4L2_SUBDEV_ROUTING_NO_STREAM_MIX : Nat := 12

def V4L2_SUBDEV_ROUTING_ONLY_1_TO_1 : Nat :=
  V4L2_SUBDEV_ROUTING_NO_1_TO_N ||| V4L2_SUBDEV_ROUTING_NO_N_TO_1

/-- Field `v4l2_subdev_format.which`: the active configuration or a try (probe)
configuration. -/
inductive FormatWhence where
  | activeFormat
  | tryFormat
deriving DecidableEq, Repr

/-- The framework routing validator `v4l2_subdev_routing_validate`:
return code for (requested routes, disallow mask). -/
abbrev RoutingValidate := List V4l2SubdevRoute → Nat → Int

/-- Helper `__xvsw_set_routing` (xilinx-axis-switch.c): pick the disallow policy
from the routing mode (TDEST routing only disallows 1-to-N; register-based
routing requires 1-to-1 and no stream mixing), validate, and on success
install the requested table (`v4l2_subdev_set_routing_with_fmt`). Returns
the result code and the (possibly unchanged) routing table. -/
def __xvsw_set_routing (tdest_routing : Bool) (validate : RoutingValidate)
    (table routing : List V4l2SubdevRoute) : Int × List V4l2SubdevRoute :=
  let disallow :=
    if tdest_routing then V4L2_SUBDEV_ROUTING_NO_1_TO_N
    else V4L2_SUBDEV_ROUTING_ONLY_1_TO_1 ||| V4L2_SUBDEV_ROUTING_NO_STREAM_MIX
  let r := validate routing disallow
  if r ≠ 0 then (r, table)
  else (0, routing)

/-- Operation `xvsw_set_routing` (xilinx-axis-switch.c): a request on the active
configuration is rejected with `-EBUSY` while the entity is part of a
pipeline (`media_entity_pipeline(&subdev->entity)` non-NULL, modelled by
`inActivePipeline`), before any validation or mutation. -/
def xvsw_set_routing (inActivePipeline : Bool) (which : FormatWhence)
    (tdest_routing : Bool) (validate : RoutingValidate)
    (table routing : List V4l2SubdevRoute) : Int × List V4l2SubdevRoute :=
  if which = FormatWhence.activeFormat ∧ inActivePipeline then (-EBUSY, table)
  else __xvsw_set_routing tdest_routing validate table routing

/-- Helper `__xsw_set_routing` (xilinx-vip.c video switch): validate with the fixed
`NO_N_TO_1 | NO_STREAM_MIX` policy and install on success. -/
def __xsw_set_routing (validate : RoutingValidate)
    (table routing : List V4l2SubdevRoute) : Int × List V4l2SubdevRoute :=
  let r := validate routing
    (V4L2_SUBDEV_ROUTING_NO_N_TO_1 ||| V4L2_SUBDEV_ROUTING_NO_STREAM_MIX)
  if r ≠ 0 then (r, table)
  else (0, routing)

/-- Operation `xsw_set_routing` (xilinx-vip.c video switch): a request on the active
configuration is rejected with `-EBUSY` while the entity is streaming
(`media_entity_is_streaming`). -/
def xsw_set_routing (isStreaming : Bool) (which : FormatWhence)
    (validate : RoutingValidate) (table routing : List V4l2SubdevRoute) :
    Int × List V4l2SubdevRoute :=
  if which = FormatWhence.activeFormat ∧ isStreaming then (-EBUSY, table)
  else __xsw_set_routing validate table routing

/-- The default routing table built by `xvsw_init_cfg`: `min(num_sinks,
num_sources)` routes, route `i` mapping sink pad `i` to source pad
`i + num_sinks` with the ACTIVE flag; `kcalloc` zero-initialises the
stream ids to 0. -/
def xvsw_default_routes (num_sinks num_sources : Nat) : List V4l2SubdevRoute :=
  (List.range (min num_sinks num_sources)).map fun i =>
    { sink_pad := i, sink_stream := 0, source_pad := i + num_sinks,
      source_stream := 0, flags := V4L2_SUBDEV_ROUTE_FL_ACTIVE }

/-- Operation `xvsw_init_cfg` (xilinx-axis-switch.c): install the default 1:1 routing
at subdevice open. -/
def xvsw_init_cfg (num_sinks num_sources : Nat) (tdest_routing : Bool)
    (validate : RoutingValidate) (table : List V4l2SubdevRoute) :
    Int × List V4l2SubdevRoute :=
  __xvsw_set_routing tdest_routing validate table
    (xvsw_default_routes num_sinks num_sources)

/-- The default routing table built by `xsw_init_cfg` (xilinx-vip.c video
switch): same 1:1 construction as `xvsw_init_cfg`. -/
def xsw_default_routes (num_sinks num_sources : Nat) : List V4l2SubdevRoute :=
  (List.range (min num_sinks num_sources)).map fun i =>
    { sink_pad := i, sink_stream := 0, source_pad := i + num_sinks,
      source_stream := 0, flags := V4L2_SUBDEV_ROUTE_FL_ACTIVE }

/-- Operation `xsw_init_cfg` (xilinx-vip.c video switch). -/
def xsw_init_cfg (num_sinks num_sources : Nat) (validate : RoutingValidate)
    (table : List V4l2SubdevRoute) : Int × List V4l2SubdevRoute :=
  __xsw_set_routing validate table (xsw_default_routes num_sinks num_sources)

/-! ## Video format tables (xilinx-vip.c)

`xvip_video_formats[]` and the lookups `xvip_get_format_by_code` /
`xvip_get_format_by_fourcc`. Only the `code` (media bus code) and `fourcc`
fields are modelled: they are the only fields the lookups match on (the
remaining geometry fields play no role in the verified claims).

The numeric values of the `V4L2_PIX_FMT_*` and `MEDIA_BUS_FMT_*` macros are
defined in uapi headers outside the extracted driver sources. Fourccs are
computed with the standard `v4l2_fourcc` formula from each macro's
four-character code (for the Xilinx-specific formats the character codes
follow the macro naming convention); media bus codes are modelled as
distinct tokens. The proofs rely only on the table's matching structure and
on the (certain) values of `V4L2_PIX_FMT_NV12` and `V4L2_PIX_FMT_YUYV`. -/

/-- The uapi `v4l2_fourcc()` macro. -/
def v4l2_fourcc (a b c d : Char) : Nat :=
  a.toNat ||| (b.toNat <<< 8) ||| (c.toNat <<< 16) ||| (d.toNat <<< 24)

def V4L2_PIX_FMT_NV12 : Nat := v4l2_fourcc 'N' 'V' '1' '2'

def V4L2_PIX_FMT_NV12M : Nat := v4l2_fourcc 'N' 'M' '1' '2'

def V4L2_PIX_FMT_XV15 : Nat := v4l2_fourcc 'X' 'V' '1' '5'

def V4L2_PIX_FMT_XV15M : Nat := v4l2_fourcc 'X' 'M' '1' '5'

def V4L2_PIX_FMT_X012 : Nat := v4l2_fourcc 'X' '0' '1' '2'

def V4L2_PIX_FMT_X012M : Nat := v4l2_fourcc 'M' '0' '1' '2'

def V4L2_PIX_FMT_X016 : Nat := v4l2_fourcc 'X' '0' '1' '6'

def V4L2_PIX_FMT_X016M : Nat := v4l2_fourcc 'M' '0' '1' '6'

def V4L2_PIX_FMT_NV16 : Nat := v4l2_fourcc 'N' 'V' '1' '6'

def V4L2_PIX_FMT_NV16M : Nat := v4l2_fourcc 'N' 'M' '1' '6'

def V4L2_PIX_FMT_YUYV : Nat := v4l2_fourcc 'Y' 'U' 'Y' 'V'

def V4L2_PIX_FMT_UYVY : Nat := v4l2_fourcc 'U' 'Y' 'V' 'Y'

def V4L2_PIX_FMT_XV20 : Nat := v4l2_fourcc 'X' 'V' '2' '0'

def V4L2_PIX_FMT_XV20M : Nat := v4l2_fourcc 'X' 'M' '2' '0'

def V4L2_PIX_FMT_X212 : Nat := v4l2_fourcc 'X' '2' '1' '2'

def V4L2_PIX_FMT_X212M : Nat := v4l2_fourcc 'M' '2' '1' '2'

def V4L2_PIX_FMT_X216 : Nat := v4l2_fourcc 'X' '2' '1' '6'

def V4L2_PIX_FMT_X216M : Nat := v4l2_fourcc 'M' '2' '1' '6'

def V4L2_PIX_FMT_VUY24 : Nat := v4l2_fourcc 'V' 'U' '2' '4'

def V4L2_PIX_FMT_XVUY32 : Nat := v4l2_fourcc 'X' 'V' '3' '2'

def V4L2_PIX_FMT_XVUY10 : Nat := v4l2_fourcc 'X' 'V' '3' '0'

def V4L2_PIX_FMT_X412 : Nat := v4l2_fourcc 'X' '4' '1' '2'

def V4L2_PIX_FMT_X412M : Nat := v4l2_fourcc 'M' '4' '1' '2'

def V4L2_PIX_FMT_X416 : Nat := v4l2_fourcc 'X' '4' '1' '6'

def V4L2_PIX_FMT_X416M : Nat := v4l2_fourcc 'M' '4' '1' '6'

def V4L2_PIX_FMT_BGR24 : Nat := v4l2_fourcc 'B' 'G' 'R' '3'

def V4L2_PIX_FMT_RGB24 : Nat := v4l2_fourcc 'R' 'G' 'B' '3'

def V4L2_PIX_FMT_BGRX32 : Nat := v4l2_fourcc 'R' 'X' '2' '4'

def V4L2_PIX_FMT_XBGR32 : Nat := v4l2_fourcc 'X' 'R' '2' '4'

def V4L2_PIX_FMT_XBGR30 : Nat := v4l2_fourcc 'R' 'X' '3' '0'

def V4L2_PIX_FMT_XBGR40 : Nat := v4l2_fourcc 'R' 'X' '4' '0'

def V4L2_PIX_FMT_BGR48 : Nat := v4l2_fourcc 'B' '3' '1' '6'

def V4L2_PIX_FMT_GREY : Nat := v4l2_fourcc 'G' 'R' 'E' 'Y'

def V4L2_PIX_FMT_XY10 : Nat := v4l2_fourcc 'X' 'Y' '1' '0'

def V4L2_PIX_FMT_XY12 : Nat := v4l2_fourcc 'X' 'Y' '1' '2'

def V4L2_PIX_FMT_Y16 : Nat := v4l2_fourcc 'Y' '1' '6' ' '

def V4L2_PIX_FMT_SGRBG8 : Nat := v4l2_fourcc 'G' 'R' 'B' 'G'

def V4L2_PIX_FMT_SGBRG8 : Nat := v4l2_fourcc 'G' 'B' 'R' 'G'

def V4L2_PIX_FMT_SBGGR8 : Nat := v4l2_fourcc 'B' 'A' '8' '1'

def V4L2_PIX_FMT_SRGGB10 : Nat := v4l2_fourcc 'R' 'G' '1' '0'

def V4L2_PIX_FMT_SGRBG10 : Nat := v4l2_fourcc 'B' 'A' '1' '0'

def V4L2_PIX_FMT_SGBRG10 : Nat := v4l2_fourcc 'G' 'B' '1' '0'

def V4L2_PIX_FMT_SBGGR10 : Nat := v4l2_fourcc 'B' 'G' '1' '0'

def V4L2_PIX_FMT_SRGGB12 : Nat := v4l2_fourcc 'R' 'G' '1' '2'

def V4L2_PIX_FMT_SGRBG12 : Nat := v4l2_fourcc 'B' 'A' '1' '2'

def V4L2_PIX_FMT_SGBRG12 : Nat := v4l2_fourcc 'G' 'B' '1' '2'

def V4L2_PIX_FMT_SBGGR12 : Nat := v4l2_fourcc 'B' 'G' '1' '2'

def V4L2_PIX_FMT_SRGGB16 : Nat := v4l2_fourcc 'R' 'G' '1' '6'

def V4L2_PIX_FMT_SGRBG16 : Nat := v4l2_fourcc 'G' 'R' '1' '6'

def V4L2_PIX_FMT_SGBRG16 : Nat := v4l2_fourcc 'G' 'B' '1' '6'

def V4L2_PIX_FMT_SBGGR16 : Nat := v4l2_fourcc 'B' 'Y' 'R' '2'

/-- Media bus codes appearing in `xvip_video_formats[]`, modelled as distinct
tokens (their numeric values live in media-bus-format.h outside the
extracted sources; the lookups only compare codes for equality). -/
def MEDIA_BUS_FMT_VYYUYY8_1X24 : Nat := 0x2001

def MEDIA_BUS_FMT_VYYUYY10_4X20 : Nat := 0x2002

def MEDIA_BUS_FMT_UYYVYY12_4X24 : Nat := 0x2003

def MEDIA_BUS_FMT_UYYVYY16_4X32 : Nat := 0x2004

def MEDIA_BUS_FMT_UYVY8_1X16 : Nat := 0x2005

def MEDIA_BUS_FMT_UYVY10_1X20 : Nat := 0x2006

def MEDIA_BUS_FMT_UYVY12_1X24 : Nat := 0x2007

def MEDIA_BUS_FMT_UYVY16_2X32 : Nat := 0x2008

def MEDIA_BUS_FMT_VUY8_1X24 : Nat := 0x2009

def MEDIA_BUS_FMT_VUY10_1X30 : Nat := 0x200a

def MEDIA_BUS_FMT_VUY12_1X36 : Nat := 0x200b

def MEDIA_BUS_FMT_VUY16_1X48 : Nat := 0x200c

def MEDIA_BUS_FMT_RBG888_1X24 : Nat := 0x200d

def MEDIA_BUS_FMT_RBG101010_1X30 : Nat := 0x200e

def MEDIA_BUS_FMT_RBG121212_1X36 : Nat := 0x200f

def MEDIA_BUS_FMT_RBG161616_1X48 : Nat := 0x2010

def MEDIA_BUS_FMT_Y8_1X8 : Nat := 0x2011

def MEDIA_BUS_FMT_Y10_1X10 : Nat := 0x2012

def MEDIA_BUS_FMT_Y12_1X12 : Nat := 0x2013

def MEDIA_BUS_FMT_Y16_1X16 : Nat := 0x2014

def MEDIA_BUS_FMT_SRGGB8_1X8 : Nat := 0x3001

def MEDIA_BUS_FMT_SGRBG8_1X8 : Nat := 0x3002

def MEDIA_BUS_FMT_SGBRG8_1X8 : Nat := 0x3003

def MEDIA_BUS_FMT_SBGGR8_1X8 : Nat := 0x3004

def MEDIA_BUS_FMT_SRGGB10_1X10 : Nat := 0x3005

def MEDIA_BUS_FMT_SGRBG10_1X10 : Nat := 0x3006

def MEDIA_BUS_FMT_SGBRG10_1X10 : Nat := 0x3007

def MEDIA_BUS_FMT_SBGGR10_1X10 : Nat := 0x3008

def MEDIA_BUS_FMT_SRGGB12_1X12 : Nat := 0x3009

def MEDIA_BUS_FMT_SGRBG12_1X12 : Nat := 0x300a

def MEDIA_BUS_FMT_SGBRG12_1X12 : Nat := 0x300b

def MEDIA_BUS_FMT_SBGGR12_1X12 : Nat := 0x300c

def MEDIA_BUS_FMT_SRGGB16_1X16 : Nat := 0x300d

def MEDIA_BUS_FMT_SGRBG16_1X16 : Nat := 0x300e

def MEDIA_BUS_FMT_SGBRG16_1X16 : Nat := 0x300f

def MEDIA_BUS_FMT_SBGGR16_1X16 : Nat := 0x3010

/-- One entry of `xvip_video_formats[]`, restricted to the two fields the
lookups match on. -/
structure XvipVideoFormat where
  code : Nat
  fourcc : Nat
deriving DecidableEq, Repr

/-- The `xvip_video_formats[]` table, entries in source order
(`(code, fourcc)` of each initialiser). -/
def xvip_video_formats : List XvipVideoFormat := [
  ⟨MEDIA_BUS_FMT_VYYUYY8_1X24, V4L2_PIX_FMT_NV12⟩,
  ⟨MEDIA_BUS_FMT_VYYUYY8_1X24, V4L2_PIX_FMT_NV12M⟩,
  ⟨MEDIA_BUS_FMT_VYYUYY10_4X20, V4L2_PIX_FMT_XV15⟩,
  ⟨MEDIA_BUS_FMT_VYYUYY10_4X20, V4L2_PIX_FMT_XV15M⟩,
  ⟨MEDIA_BUS_FMT_UYYVYY12_4X24, V4L2_PIX_FMT_X012⟩,
  ⟨MEDIA_BUS_FMT_UYYVYY12_4X24, V4L2_PIX_FMT_X012M⟩,
  ⟨MEDIA_BUS_FMT_UYYVYY16_4X32, V4L2_PIX_FMT_X016⟩,
  ⟨MEDIA_BUS_FMT_UYYVYY16_4X32, V4L2_PIX_FMT_X016M⟩,
  ⟨MEDIA_BUS_FMT_UYVY8_1X16, V4L2_PIX_FMT_NV16⟩,
  ⟨MEDIA_BUS_FMT_UYVY8_1X16, V4L2_PIX_FMT_NV16M⟩,
  ⟨MEDIA_BUS_FMT_UYVY8_1X16, V4L2_PIX_FMT_YUYV⟩,
  ⟨MEDIA_BUS_FMT_UYVY8_1X16, V4L2_PIX_FMT_UYVY⟩,
  ⟨MEDIA_BUS_FMT_UYVY10_1X20, V4L2_PIX_FMT_XV20⟩,
  ⟨MEDIA_BUS_FMT_UYVY10_1X20, V4L2_PIX_FMT_XV20M⟩,
  ⟨MEDIA_BUS_FMT_UYVY12_1X24, V4L2_PIX_FMT_X212⟩,
  ⟨MEDIA_BUS_FMT_UYVY12_1X24, V4L2_PIX_FMT_X212M⟩,
  ⟨MEDIA_BUS_FMT_UYVY16_2X32, V4L2_PIX_FMT_X216⟩,
  ⟨MEDIA_BUS_FMT_UYVY16_2X32, V4L2_PIX_FMT_X216M⟩,
  ⟨MEDIA_BUS_FMT_VUY8_1X24, V4L2_PIX_FMT_VUY24⟩,
  ⟨MEDIA_BUS_FMT_VUY8_1X24, V4L2_PIX_FMT_XVUY32⟩,
  ⟨MEDIA_BUS_FMT_VUY10_1X30, V4L2_PIX_FMT_XVUY10⟩,
  ⟨MEDIA_BUS_FMT_VUY12_1X36, V4L2_PIX_FMT_X412⟩,
  ⟨MEDIA_BUS_FMT_VUY12_1X36, V4L2_PIX_FMT_X412M⟩,
  ⟨MEDIA_BUS_FMT_VUY16_1X48, V4L2_PIX_FMT_X416⟩,
  ⟨MEDIA_BUS_FMT_VUY16_1X48, V4L2_PIX_FMT_X416M⟩,
  ⟨MEDIA_BUS_FMT_RBG888_1X24, V4L2_PIX_FMT_BGR24⟩,
  ⟨MEDIA_BUS_FMT_RBG888_1X24, V4L2_PIX_FMT_RGB24⟩,
  ⟨MEDIA_BUS_FMT_RBG888_1X24, V4L2_PIX_FMT_BGRX32⟩,
  ⟨MEDIA_BUS_FMT_RBG888_1X24, V4L2_PIX_FMT_XBGR32⟩,
  ⟨MEDIA_BUS_FMT_RBG101010_1X30, V4L2_PIX_FMT_XBGR30⟩,
  ⟨MEDIA_BUS_FMT_RBG121212_1X36, V4L2_PIX_FMT_XBGR40⟩,
  ⟨MEDIA_BUS_FMT_RBG161616_1X48, V4L2_PIX_FMT_BGR48⟩,
  ⟨MEDIA_BUS_FMT_Y8_1X8, V4L2_PIX_FMT_GREY⟩,
  ⟨MEDIA_BUS_FMT_Y10_1X10, V4L2_PIX_FMT_XY10⟩,
  ⟨MEDIA_BUS_FMT_Y12_1X12, V4L2_PIX_FMT_XY12⟩,
  ⟨MEDIA_BUS_FMT_Y16_1X16, V4L2_PIX_FMT_Y16⟩,
  ⟨MEDIA_BUS_FMT_SRGGB8_1X8, V4L2_PIX_FMT_SGRBG8⟩,
  ⟨MEDIA_BUS_FMT_SGRBG8_1X8, V4L2_PIX_FMT_SGRBG8⟩,
  ⟨MEDIA_BUS_FMT_SGBRG8_1X8, V4L2_PIX_FMT_SGBRG8⟩,
  ⟨MEDIA_BUS_FMT_SBGGR8_1X8, V4L2_PIX_FMT_SBGGR8⟩,
  ⟨MEDIA_BUS_FMT_SRGGB10_1X10, V4L2_PIX_FMT_SRGGB10⟩,
  ⟨MEDIA_BUS_FMT_SGRBG10_1X10, V4L2_PIX_FMT_SGRBG10⟩,
  ⟨MEDIA_BUS_FMT_SGBRG10_1X10, V4L2_PIX_FMT_SGBRG10⟩,
  ⟨MEDIA_BUS_FMT_SBGGR10_1X10, V4L2_PIX_FMT_SBGGR10⟩,
  ⟨MEDIA_BUS_FMT_SRGGB12_1X12, V4L2_PIX_FMT_SRGGB12⟩,
  ⟨MEDIA_BUS_FMT_SGRBG12_1X12, V4L2_PIX_FMT_SGRBG12⟩,
  ⟨MEDIA_BUS_FMT_SGBRG12_1X12, V4L2_PIX_FMT_SGBRG12⟩,
  ⟨MEDIA_BUS_FMT_SBGGR12_1X12, V4L2_PIX_FMT_SBGGR12⟩,
  ⟨MEDIA_BUS_FMT_SRGGB16_1X16, V4L2_PIX_FMT_SRGGB16⟩,
  ⟨MEDIA_BUS_FMT_SGRBG16_1X16, V4L2_PIX_FMT_SGRBG16⟩,
  ⟨MEDIA_BUS_FMT_SGBRG16_1X16, V4L2_PIX_FMT_SGBRG16⟩,
  ⟨MEDIA_BUS_FMT_SBGGR16_1X16, V4L2_PIX_FMT_SBGGR16⟩]

/-- Lookup `xvip_get_format_by_code`: linear scan for the first entry with the given
media bus code, `ERR_PTR(-EINVAL)` when none matches. -/
def xvip_get_format_by_code (code : Nat) : Except Int XvipVideoFormat :=
  match xvip_video_formats.find? (fun f => f.code == code) with
  | some f => Except.ok f
  | none => Except.error (-EINVAL)

/-- Lookup `xvip_get_format_by_fourcc`: linear scan for the first entry with the
given 4CC; when none matches, return `&xvip_video_formats[0]` (the function
never fails). -/
def xvip_get_format_by_fourcc (fourcc : Nat) : XvipVideoFormat :=
  match xvip_video_formats.find? (fun f => f.fourcc == fourcc) with
  | some f => f
  | none => xvip_video_formats.getD 0 ⟨0, 0⟩

/-- A route `r` of the table routes stream `(pad, ·)` of the propagation
request to `(p, t)`: either `r` is a selected sink-side match (its sink is
`(pad, s)` with `s` in `streams_mask` and its source endpoint is `(p, t)`)
or symmetrically a source-side match. This is the selection relation of the
`for_each_active_route` loop of `__xvip_enable_connected_streams`. -/
def routeSelects (pad streams_mask : Nat) (r : V4l2SubdevRoute) (p t : Nat) : Prop :=
  (r.sink_pad = pad ∧ Nat.testBit streams_mask r.sink_stream ∧
   r.source_pad = p ∧ r.source_stream = t) ∨
  (r.source_pad = pad ∧ Nat.testBit streams_mask r.source_stream ∧
   r.sink_pad = p ∧ r.sink_stream = t)

/-! ## Helper lemmas -/

/-- Running `runPhase` over a list on which the call always succeeds: no error, every
engine attempted and succeeded. -/
theorem runPhase_ok (f : XvipDma → Int) (l : List XvipDma)
    (h : ∀ d ∈ l, f d = 0) : runPhase f l = (0, l, l) := by
  induction l with
  | nil => rfl
  | cons d ds ih =>
    have hd : f d = 0 := h d (List.mem_cons_self d ds)
    have hds : ∀ x ∈ ds, f x = 0 := fun x hx => h x (List.mem_cons_of_mem d hx)
    simp [runPhase, hd, ih hds]

/-- Running `runPhase` over a list whose first failure is `d` (after the all-success
prefix `pre`): returns `f d`, the attempted list `pre ++ [d]`, and the
succeeded prefix `pre`. -/
theorem runPhase_fail (f : XvipDma → Int) (pre : List XvipDma) (d : XvipDma)
    (post : List XvipDma) (hpre : ∀ x ∈ pre, f x = 0) (hd : f d ≠ 0) :
    runPhase f (pre ++ d :: post) = (f d, pre ++ [d], pre) := by
  induction pre with
  | nil => simp [runPhase, hd]
  | cons x xs ih =>
    have hx : f x = 0 := hpre x (List.mem_cons_self x xs)
    have hxs : ∀ y ∈ xs, f y = 0 := fun y hy => hpre y (List.mem_cons_of_mem x hy)
    simp [runPhase, hx, ih hxs]

/-- Running `runRemoteCalls` when every selected call succeeds: no error, and the
trace is exactly the selected calls in order. -/
theorem runRemoteCalls_ok (remote : RemoteOracle) (enable : Bool)
    (cs : List RemoteCall) (h : ∀ c ∈ cs, remote enable c.ent c.pad c.streams = 0) :
    runRemoteCalls remote enable cs = (0, cs.map (remoteEvent enable)) := by
  induction cs with
  | nil => rfl
  | cons c cs ih =>
    have hc : remote enable c.ent c.pad c.streams = 0 :=
      h c (List.mem_cons_self c cs)
    have hcs : ∀ x ∈ cs, remote enable x.ent x.pad x.streams = 0 :=
      fun x hx => h x (List.mem_cons_of_mem c hx)
    simp [runRemoteCalls, hc, ih hcs]

/-- Running `runRemoteCalls` when the first failing call is `c` (after the
all-success prefix `pre`): the error of `c` is returned and the trace covers
exactly `pre ++ [c]` — the calls after the failure are not issued. -/
theorem runRemoteCalls_fail (remote : RemoteOracle) (enable : Bool)
    (pre : List RemoteCall) (c : RemoteCall) (post : List RemoteCall)
    (hpre : ∀ x ∈ pre, remote enable x.ent x.pad x.streams = 0)
    (hc : remote enable c.ent c.pad c.streams ≠ 0) :
    runRemoteCalls remote enable (pre ++ c :: post) =
      (remote enable c.ent c.pad c.streams,
       (pre ++ [c]).map (remoteEvent enable)) := by
  induction pre with
  | nil => simp [runRemoteCalls, hc]
  | cons x xs ih =>
    have hx : remote enable x.ent x.pad x.streams = 0 :=
      hpre x (List.mem_cons_self x xs)
    have hxs : ∀ y ∈ xs, remote enable y.ent y.pad y.streams = 0 :=
      fun y hy => hpre y (List.mem_cons_of_mem x hy)
    simp [runRemoteCalls, hx, ih hxs]

/-- The trace of `runRemoteCalls` contains only remote-call events: no
device-hook event ever appears in it. -/
theorem runRemoteCalls_no_device_event (remote : RemoteOracle) (enable : Bool)
    (cs : List RemoteCall) (p m : Nat) :
    SEvent.deviceDisable p m ∉ (runRemoteCalls remote enable cs).2 ∧
    SEvent.deviceEnable p m ∉ (runRemoteCalls remote enable cs).2 := by
  induction cs with
  | nil => simp [runRemoteCalls]
  | cons c cs ih =>
    by_cases hc : remote enable c.ent c.pad c.streams ≠ 0 <;>
      simp [runRemoteCalls, hc, remoteEvent] <;>
      cases enable <;> simp_all [remoteEvent]

/-! ## Claim theorems -/

/-- C8: for every switch entity (AXI4-Stream switch `xvsw` and legacy video
switch `xsw`) and every requested route set — valid or not, whatever the
validator would say — a `set_routing` call on the active configuration fails
with `-EBUSY` while the entity is part of an active streaming pipeline, and
the existing routing table is returned unchanged. -/
theorem set_routing_busy_while_streaming :
    (∀ (tdest_routing : Bool) (validate : RoutingValidate)
       (table routing : List V4l2SubdevRoute),
       xvsw_set_routing true FormatWhence.activeFormat tdest_routing validate
           table routing = (-EBUSY, table)) ∧
    (∀ (validate : RoutingValidate) (table routing : List V4l2SubdevRoute),
       xsw_set_routing true FormatWhence.activeFormat validate table routing =
         (-EBUSY, table)) := by
  constructor <;> intros <;> simp [xvsw_set_routing, xsw_set_routing]

/-- C5: in synchronous multi-output mode, `xvip_pipeline_stop_dma` first
decrements the caller's per-direction streaming counter, and exactly when
the decremented total equals `num_inputs + num_outputs - 1` runs the ordered
full-pipeline stop — all input (TX) DMA engines stopped, then every output
(RX) branch disabled, then all output (RX) DMA engines stopped, the exact
reverse of the start order. The function returns no error (its type carries
no status), and the stop trace is complete for every oracle, in particular
when branch-disable calls fail (their return codes are ignored). -/
theorem sync_stop_dma_ordered_best_effort (pipe : XvipPipeline)
    (dma : XvipDma) (ora : PipeOracle) :
    xvip_pipeline_stop_dma MultiOutMode.sync pipe dma ora =
      (decrStreamCount pipe dma,
       if (decrStreamCount pipe dma).input_stream_count +
            (decrStreamCount pipe dma).output_stream_count =
           pipe.num_inputs + pipe.num_outputs - 1 then
         (txDmas pipe).map (fun d => PEvent.dmaStop d.id) ++
         (rxDmas pipe).map (fun d => PEvent.branchDisable d.id) ++
         (rxDmas pipe).map (fun d => PEvent.dmaStop d.id)
       else []) := by
  cases dma with
  | mk id dir =>
    cases dir <;>
      simp [xvip_pipeline_stop_dma, xvip_pipeline_stop, decrStreamCount,
            rxDmas, txDmas] <;>
      split <;> simp

/-- C7: in asynchronous multi-output mode, `xvip_pipeline_start_dma` starts
only the caller's own DMA channel and enables only its own branch; if the
branch enable fails, only that channel is stopped again (local rollback).
`xvip_pipeline_stop_dma` symmetrically disables only the caller's own branch
and stops only its own channel. In both directions the trace mentions no
other DMA engine or branch and the pipeline (in particular its streaming
counters) is returned unchanged. -/
theorem async_start_stop_local (pipe : XvipPipeline) (dma : XvipDma)
    (ora : PipeOracle) :
    (xvip_pipeline_start_dma MultiOutMode.async pipe dma ora =
      if ora.enableBranch dma.id ≠ 0 then
        (ora.enableBranch dma.id, pipe,
         [PEvent.dmaStart dma.id, PEvent.branchEnable dma.id,
          PEvent.dmaStop dma.id])
      else
        (0, pipe, [PEvent.dmaStart dma.id, PEvent.branchEnable dma.id])) ∧
    xvip_pipeline_stop_dma MultiOutMode.async pipe dma ora =
      (pipe, [PEvent.branchDisable dma.id, PEvent.dmaStop dma.id]) := by
  constructor
  · by_cases h : ora.enableBranch dma.id ≠ 0 <;>
      simp [xvip_pipeline_start_dma, xvip_dma_start_ret, h]
  · rfl

/-- C3: in synchronous multi-output mode, `xvip_pipeline_start_dma` performs
no hardware operation (empty trace) unless the pre-increment sum of the two
per-direction streaming counters equals `num_inputs + num_outputs - 1`, i.e.
the caller is the last DMA engine of the pipeline to request start. When the
threshold is met (and every branch enable succeeds), the full-pipeline start
runs in the strict order: hardware start of every output (RX) DMA engine,
then branch enable for every output DMA engine, then hardware start of every
input (TX) DMA engine; the caller's direction counter is incremented. -/
theorem sync_start_dma_threshold_and_order (pipe : XvipPipeline)
    (dma : XvipDma) (ora : PipeOracle) :
    (pipe.input_stream_count + pipe.output_stream_count ≠
        pipe.num_inputs + pipe.num_outputs - 1 →
      xvip_pipeline_start_dma MultiOutMode.sync pipe dma ora =
        (0, incrStreamCount pipe dma, [])) ∧
    (pipe.input_stream_count + pipe.output_stream_count =
        pipe.num_inputs + pipe.num_outputs - 1 →
      (∀ d ∈ rxDmas pipe, ora.enableBranch d.id = 0) →
      xvip_pipeline_start_dma MultiOutMode.sync pipe dma ora =
        (0, incrStreamCount pipe dma,
         (rxDmas pipe).map (fun d => PEvent.dmaStart d.id) ++
         (rxDmas pipe).map (fun d => PEvent.branchEnable d.id) ++
         (txDmas pipe).map (fun d => PEvent.dmaStart d.id))) := by
  constructor
  · intro hne
    simp [xvip_pipeline_start_dma, hne]
  · intro heq hok
    have h1 : runPhase xvip_dma_start_ret (rxDmas pipe) =
        (0, rxDmas pipe, rxDmas pipe) :=
      runPhase_ok _ _ (fun d _ => rfl)
    have h2 : runPhase (fun d => ora.enableBranch d.id) (rxDmas pipe) =
        (0, rxDmas pipe, rxDmas pipe) :=
      runPhase_ok _ _ (fun d hd => hok d hd)
    have h3 : runPhase xvip_dma_start_ret (txDmas pipe) =
        (0, txDmas pipe, txDmas pipe) :=
      runPhase_ok _ _ (fun d _ => rfl)
    simp [xvip_pipeline_start_dma, heq, xvip_pipeline_start, h1, h2, h3]

/-- Witness for C3 on a two-engine pipeline (one output id 0, one input
id 1): below the threshold a start touches no hardware; at the threshold the
ordered full start runs (output DMA start, branch enable, input DMA
start). -/
theorem sync_start_dma_threshold_and_order_witness :
    xvip_pipeline_start_dma MultiOutMode.sync
        ⟨[⟨0, VflDir.rx⟩, ⟨1, VflDir.tx⟩], 1, 1, 0, 0⟩ ⟨1, VflDir.tx⟩
        ⟨fun _ => 0, fun _ => 0⟩ =
      (0, incrStreamCount ⟨[⟨0, VflDir.rx⟩, ⟨1, VflDir.tx⟩], 1, 1, 0, 0⟩
            ⟨1, VflDir.tx⟩, []) ∧
    xvip_pipeline_start_dma MultiOutMode.sync
        ⟨[⟨0, VflDir.rx⟩, ⟨1, VflDir.tx⟩], 1, 1, 1, 0⟩ ⟨0, VflDir.rx⟩
        ⟨fun _ => 0, fun _ => 0⟩ =
      (0, incrStreamCount ⟨[⟨0, VflDir.rx⟩, ⟨1, VflDir.tx⟩], 1, 1, 1, 0⟩
            ⟨0, VflDir.rx⟩,
       (rxDmas ⟨[⟨0, VflDir.rx⟩, ⟨1, VflDir.tx⟩], 1, 1, 1, 0⟩).map
          (fun d => PEvent.dmaStart d.id) ++
       (rxDmas ⟨[⟨0, VflDir.rx⟩, ⟨1, VflDir.tx⟩], 1, 1, 1, 0⟩).map
          (fun d => PEvent.branchEnable d.id) ++
       (txDmas ⟨[⟨0, VflDir.rx⟩, ⟨1, VflDir.tx⟩], 1, 1, 1, 0⟩).map
          (fun d => PEvent.dmaStart d.id)) :=
  ⟨(sync_start_dma_threshold_and_order _ _ _).1 (by decide),
   (sync_start_dma_threshold_and_order _ _ _).2 (by decide) (by decide)⟩

/-- C4: in synchronous multi-output mode, when the threshold is met and a
step of the ordered full-pipeline start fails (in this code the DMA starts
cannot fail — `xvip_dma_start` always returns 0 — so the failing step is a
branch enable, here the first failing branch `fd` after the all-success
prefix `pre`), everything already started within the call is rolled back in
reverse order: the already-enabled branches are disabled in reverse, then
the already-started output DMA engines are stopped in reverse. The error is
returned and the streaming counters (the whole pipeline value) are left
unchanged; paired with C3, the counter is incremented only on success. -/
theorem sync_start_dma_rollback_reverse_order (pipe : XvipPipeline)
    (dma : XvipDma) (ora : PipeOracle) (pre : List XvipDma) (fd : XvipDma)
    (post : List XvipDma)
    (hthr : pipe.input_stream_count + pipe.output_stream_count =
        pipe.num_inputs + pipe.num_outputs - 1)
    (hsplit : rxDmas pipe = pre ++ fd :: post)
    (hpre : ∀ d ∈ pre, ora.enableBranch d.id = 0)
    (hfd : ora.enableBranch fd.id < 0) :
    xvip_pipeline_start_dma MultiOutMode.sync pipe dma ora =
      (ora.enableBranch fd.id, pipe,
       (rxDmas pipe).map (fun d => PEvent.dmaStart d.id) ++
       (pre ++ [fd]).map (fun d => PEvent.branchEnable d.id) ++
       pre.reverse.map (fun d => PEvent.branchDisable d.id) ++
       (rxDmas pipe).reverse.map (fun d => PEvent.dmaStop d.id)) := by
  have hfd' : ora.enableBranch fd.id ≠ 0 := by omega
  have h1 : runPhase xvip_dma_start_ret (rxDmas pipe) =
      (0, rxDmas pipe, rxDmas pipe) :=
    runPhase_ok _ _ (fun d _ => rfl)
  have h2 : runPhase (fun d => ora.enableBranch d.id) (rxDmas pipe) =
      (ora.enableBranch fd.id, pre ++ [fd], pre) := by
    rw [hsplit]
    exact runPhase_fail _ pre fd post hpre hfd'
  simp [xvip_pipeline_start_dma, hthr, xvip_pipeline_start, h1, h2, hfd',
        hfd, if_neg (not_lt.mpr (le_of_lt hfd))]

/-- Witness for C4 on a pipeline with two output engines (ids 0 and 2) and
one input engine (id 1), at the threshold, where enabling the branch of
engine 2 fails with -5: engine 0's branch is disabled and both output
engines are stopped in reverse order, the error is returned and the
counters stay (1, 0). -/
theorem sync_start_dma_rollback_reverse_order_witness :
    xvip_pipeline_start_dma MultiOutMode.sync
        ⟨[⟨0, VflDir.rx⟩, ⟨1, VflDir.tx⟩, ⟨2, VflDir.rx⟩], 1, 2, 1, 1⟩
        ⟨2, VflDir.rx⟩
        ⟨fun i => if i = 2 then -5 else 0, fun _ => 0⟩ =
      (-5, ⟨[⟨0, VflDir.rx⟩, ⟨1, VflDir.tx⟩, ⟨2, VflDir.rx⟩], 1, 2, 1, 1⟩,
       [PEvent.dmaStart 0, PEvent.dmaStart 2,
        PEvent.branchEnable 0, PEvent.branchEnable 2,
        PEvent.branchDisable 0,
        PEvent.dmaStop 2, PEvent.dmaStop 0]) := by
  have h := sync_start_dma_rollback_reverse_order
    ⟨[⟨0, VflDir.rx⟩, ⟨1, VflDir.tx⟩, ⟨2, VflDir.rx⟩], 1, 2, 1, 1⟩
    ⟨2, VflDir.rx⟩
    ⟨fun i => if i = 2 then -5 else 0, fun _ => 0⟩
    [⟨0, VflDir.rx⟩] ⟨2, VflDir.rx⟩ []
    (by decide) (by decide) (by decide) (by decide)
  exact h.trans (by decide)

/-- C1 counterexample: a subdevice with one sink and one source pad, a
`disable_streams` device hook, and a single enabled data link to a remote
subdev (entity 7) whose disable fails with -5. `xvip_disable_streams` on
(pad 0, mask 1) returns the propagation error and its trace is exactly the
one failing remote disable call: the entity's own disable hook is NOT
invoked (no `deviceDisable` event), contradicting the claim that the device
hook is called regardless of the propagation step's return code. -/
theorem xvip_disable_streams_best_effort_cex :
    xvip_disable_streams
        ⟨[MEDIA_PAD_FL_SINK, MEDIA_PAD_FL_SOURCE],
         [⟨MEDIA_LNK_FL_ENABLED, true, 1, 0, 7, true⟩],
         some (fun _ _ => 0), some (fun _ _ => 0)⟩
        none 0 1 (fun _ _ _ _ => -5) =
      (-5, [SEvent.remoteDisable 7 0 1]) ∧
    SEvent.deviceDisable 0 1 ∉
      (xvip_disable_streams
        ⟨[MEDIA_PAD_FL_SINK, MEDIA_PAD_FL_SOURCE],
         [⟨MEDIA_LNK_FL_ENABLED, true, 1, 0, 7, true⟩],
         some (fun _ _ => 0), some (fun _ _ => 0)⟩
        none 0 1 (fun _ _ _ _ => -5)).2 := by
  constructor <;> decide

/-- C1 (amended): for every subdevice using the generic dispatch wrapper, a
disable-streams request on (pad, streams_mask) first propagates the disable
to connected neighbour subdevices; the entity's own disable device hook is
invoked only when the propagation succeeds. When the propagation fails, its
error is returned as is, the local disable hook is not invoked, and the
trace carries no device-hook event — so a propagation failure does prevent
the local hardware deactivation. -/
theorem xvip_disable_streams_gated_on_propagation (sd : XvipSubdev)
    (state : Option (List V4l2SubdevRoute)) (pad streams_mask : Nat)
    (remote : RemoteOracle)
    (hfail : (xvip_disable_connected_streams sd state pad streams_mask
        remote).1 ≠ 0) :
    xvip_disable_streams sd state pad streams_mask remote =
      xvip_disable_connected_streams sd state pad streams_mask remote ∧
    ∀ p m, SEvent.deviceDisable p m ∉
      (xvip_disable_streams sd state pad streams_mask remote).2 := by
  have heq : xvip_disable_streams sd state pad streams_mask remote =
      xvip_disable_connected_streams sd state pad streams_mask remote := by
    simp [xvip_disable_streams, hfail]
  refine ⟨heq, fun p m => ?_⟩
  rw [heq]
  exact (runRemoteCalls_no_device_event remote false
    (__xvip_connected_calls sd state pad streams_mask) p m).1

/-- Witness for the amended C1 at the counterexample configuration: the
propagation failure (-5) is returned unchanged and the local disable hook
is not called. -/
theorem xvip_disable_streams_gated_on_propagation_witness :
    xvip_disable_streams
        ⟨[MEDIA_PAD_FL_SINK, MEDIA_PAD_FL_SOURCE],
         [⟨MEDIA_LNK_FL_ENABLED, true, 1, 0, 9, true⟩],
         some (fun _ _ => 0), some (fun _ _ => 0)⟩
        none 0 1 (fun _ _ _ _ => -5) =
      xvip_disable_connected_streams
        ⟨[MEDIA_PAD_FL_SINK, MEDIA_PAD_FL_SOURCE],
         [⟨MEDIA_LNK_FL_ENABLED, true, 1, 0, 9, true⟩],
         some (fun _ _ => 0), some (fun _ _ => 0)⟩
        none 0 1 (fun _ _ _ _ => -5) ∧
    SEvent.deviceDisable 0 1 ∉
      (xvip_disable_streams
        ⟨[MEDIA_PAD_FL_SINK, MEDIA_PAD_FL_SOURCE],
         [⟨MEDIA_LNK_FL_ENABLED, true, 1, 0, 9, true⟩],
         some (fun _ _ => 0), some (fun _ _ => 0)⟩
        none 0 1 (fun _ _ _ _ => -5)).2 :=
  ⟨(xvip_disable_streams_gated_on_propagation _ none 0 1 _ (by decide)).1,
   (xvip_disable_streams_gated_on_propagation _ none 0 1 _ (by decide)).2 0 1⟩

/-- C2: for every subdevice using the generic dispatch wrapper (here with
both device hooks implemented and a succeeding enable hook), an
enable-streams request on (pad, streams_mask) calls the entity's own enable
device hook first (head of the trace); when the propagation to the selected
links fails at the first failing call `c` (after the all-success prefix
`pre`), no further link is attempted (the trace covers exactly
`pre ++ [c]`), the entity's disable device hook is invoked to roll back the
local activation (last trace event), and the failing call's error code is
returned to the caller. -/
theorem xvip_enable_streams_rollback_on_propagation_failure
    (sd : XvipSubdev) (state : Option (List V4l2SubdevRoute))
    (pad streams_mask : Nat) (remote : RemoteOracle)
    (eh dh : Nat → Nat → Int) (pre : List RemoteCall) (c : RemoteCall)
    (post : List RemoteCall)
    (hen : sd.enable_streams_op = some eh)
    (hdis : sd.disable_streams_op = some dh)
    (heh : eh pad streams_mask = 0)
    (hsplit : __xvip_connected_calls sd state pad streams_mask =
        pre ++ c :: post)
    (hpre : ∀ x ∈ pre, remote true x.ent x.pad x.streams = 0)
    (hc : remote true c.ent c.pad c.streams ≠ 0) :
    xvip_enable_streams sd state pad streams_mask remote =
      (remote true c.ent c.pad c.streams,
       SEvent.deviceEnable pad streams_mask ::
       ((pre ++ [c]).map (remoteEvent true) ++
        [SEvent.deviceDisable pad streams_mask])) := by
  have hrun : xvip_enable_connected_streams sd state pad streams_mask remote =
      (remote true c.ent c.pad c.streams, (pre ++ [c]).map (remoteEvent true)) := by
    unfold xvip_enable_connected_streams __xvip_enable_connected_streams
    rw [hsplit]
    exact runRemoteCalls_fail remote true pre c post hpre hc
  simp [xvip_enable_streams, hen, hdis, heh, hrun, hc]

/-- Witness for C2: a subdevice with one sink (pad 0) and two source pads
(1 and 2), both linked to remote subdevs (entities 5 and 6); enabling on
entity 5 succeeds and on entity 6 fails with -5. The enable on (pad 0,
mask 1) runs the device enable hook, the two remote enables, the rollback
disable hook, and returns -5. -/
theorem xvip_enable_streams_rollback_on_propagation_failure_witness :
    xvip_enable_streams
        ⟨[MEDIA_PAD_FL_SINK, MEDIA_PAD_FL_SOURCE, MEDIA_PAD_FL_SOURCE],
         [⟨MEDIA_LNK_FL_ENABLED, true, 1, 0, 5, true⟩,
          ⟨MEDIA_LNK_FL_ENABLED, true, 2, 0, 6, true⟩],
         some (fun _ _ => 0), some (fun _ _ => 0)⟩
        none 0 1 (fun _ e _ _ => if e = 6 then -5 else 0) =
      (-5,
       [SEvent.deviceEnable 0 1, SEvent.remoteEnable 5 0 1,
        SEvent.remoteEnable 6 0 1, SEvent.deviceDisable 0 1]) := by
  have h := xvip_enable_streams_rollback_on_propagation_failure
    ⟨[MEDIA_PAD_FL_SINK, MEDIA_PAD_FL_SOURCE, MEDIA_PAD_FL_SOURCE],
     [⟨MEDIA_LNK_FL_ENABLED, true, 1, 0, 5, true⟩,
      ⟨MEDIA_LNK_FL_ENABLED, true, 2, 0, 6, true⟩],
     some (fun _ _ => 0), some (fun _ _ => 0)⟩
    none 0 1 (fun _ e _ _ => if e = 6 then -5 else 0)
    (fun _ _ => 0) (fun _ _ => 0)
    [⟨5, 0, 1⟩] ⟨6, 0, 1⟩ []
    rfl rfl rfl (by decide) (by decide) (by decide)
  exact h.trans (by decide)

/-- C9: for every switch entity with `num_sinks` sink pads and `num_sources`
source pads, the routing table installed at subdevice open (`xvsw_init_cfg`
of the AXI4-Stream switch and `xsw_init_cfg` of the legacy video switch,
here with a validator accepting the generated table) contains exactly
`min num_sinks num_sources` routes, all active, where route `i` maps sink
pad `i`, stream 0 to source pad `i + num_sinks`, stream 0 — a one-to-one
identity mapping preferring the lowest-index sinks, with any extra sources
left unconnected. -/
theorem switch_init_cfg_identity_routing (num_sinks num_sources : Nat)
    (tdest_routing : Bool) (validate : RoutingValidate)
    (table : List V4l2SubdevRoute)
    (hv : ∀ routes disallow, validate routes disallow = 0) :
    xvsw_init_cfg num_sinks num_sources tdest_routing validate table =
      (0, xvsw_default_routes num_sinks num_sources) ∧
    xsw_init_cfg num_sinks num_sources validate table =
      (0, xsw_default_routes num_sinks num_sources) ∧
    xsw_default_routes num_sinks num_sources =
      xvsw_default_routes num_sinks num_sources ∧
    (xvsw_default_routes num_sinks num_sources).length =
      min num_sinks num_sources ∧
    (∀ i, i < min num_sinks num_sources →
      (xvsw_default_routes num_sinks num_sources).get? i =
        some ⟨i, 0, i + num_sinks, 0, V4L2_SUBDEV_ROUTE_FL_ACTIVE⟩) ∧
    (∀ r ∈ xvsw_default_routes num_sinks num_sources, routeActive r) := by
  refine ⟨?_, ?_, rfl, ?_, ?_, ?_⟩
  · simp [xvsw_init_cfg, __xvsw_set_routing, hv]
  · simp [xsw_init_cfg, __xsw_set_routing, hv]
  · simp [xvsw_default_routes]
  · intro i hi
    simp [xvsw_default_routes, List.get?_map, List.get?_range, hi]
  · intro r hr
    simp only [xvsw_default_routes, List.mem_map] at hr
    obtain ⟨i, _, rfl⟩ := hr
    simp [routeActive, V4L2_SUBDEV_ROUTE_FL_ACTIVE]

/-- Witness for C9 with 2 sinks and 3 sources and an all-accepting
validator: the table has two active routes, sink 0 → source 2 and
sink 1 → source 3, and source pad 4 stays unconnected. -/
theorem switch_init_cfg_identity_routing_witness :
    xvsw_init_cfg 2 3 false (fun _ _ => 0) [] =
      (0, xvsw_default_routes 2 3) ∧
    (xvsw_default_routes 2 3).length = min 2 3 ∧
    (xvsw_default_routes 2 3).get? 0 =
      some ⟨0, 0, 2, 0, V4L2_SUBDEV_ROUTE_FL_ACTIVE⟩ ∧
    (xvsw_default_routes 2 3).get? 1 =
      some ⟨1, 0, 3, 0, V4L2_SUBDEV_ROUTE_FL_ACTIVE⟩ := by
  have h := switch_init_cfg_identity_routing 2 3 false (fun _ _ => 0) []
    (fun _ _ => rfl)
  exact ⟨h.1, h.2.2.2.1, by
    have h0 := h.2.2.2.2.1 0 (by decide)
    simpa using h0, by
    have h1 := h.2.2.2.2.1 1 (by decide)
    simpa using h1⟩

/-- C10: the format lookup by 4CC is total and never returns an error: for
every 32-bit fourcc, `xvip_get_format_by_fourcc` returns an entry of the
table, and when no entry matches it returns the table's first entry — the
NV12 format — even though the function's own kernel-doc claims the fallback
is `V4L2_PIX_FMT_YUYV` (and NV12 differs from YUYV). The lookup by media
bus code, in contrast, returns `ERR_PTR(-EINVAL)` for an unknown code. -/
theorem format_by_fourcc_total_fallback_nv12 (fourcc code : Nat)
    (hf : ∀ f ∈ xvip_video_formats, f.fourcc ≠ fourcc)
    (hc : ∀ f ∈ xvip_video_formats, f.code ≠ code) :
    (∀ fc : Nat, xvip_get_format_by_fourcc fc ∈ xvip_video_formats) ∧
    xvip_get_format_by_fourcc fourcc =
      ⟨MEDIA_BUS_FMT_VYYUYY8_1X24, V4L2_PIX_FMT_NV12⟩ ∧
    V4L2_PIX_FMT_NV12 ≠ V4L2_PIX_FMT_YUYV ∧
    xvip_get_format_by_code code = Except.error (-EINVAL) := by
  have hfind : xvip_video_formats.find? (fun f => f.fourcc == fourcc) = none := by
    rw [List.find?_eq_none]
    intro f hmem
    simpa using hf f hmem
  have hfindc : xvip_video_formats.find? (fun f => f.code == code) = none := by
    rw [List.find?_eq_none]
    intro f hmem
    simpa using hc f hmem
  refine ⟨?_, ?_, by decide, ?_⟩
  · intro fc
    unfold xvip_get_format_by_fourcc
    cases hfc : xvip_video_formats.find? (fun f => f.fourcc == fc) with
    | some f => exact List.mem_of_find?_eq_some hfc
    | none => decide
  · unfold xvip_get_format_by_fourcc
    rw [hfind]
    decide
  · unfold xvip_get_format_by_code
    rw [hfindc]


/-- Witness for C10 at fourcc 0 and media bus code 0 (matching no table
entry): the 4CC lookup falls back to the first entry (NV12, not the YUYV
promised by the kernel-doc) and the bus-code lookup errors out. -/
theorem format_by_fourcc_total_fallback_nv12_witness :
    xvip_get_format_by_fourcc 0 =
      ⟨MEDIA_BUS_FMT_VYYUYY8_1X24, V4L2_PIX_FMT_NV12⟩ ∧
    V4L2_PIX_FMT_NV12 ≠ V4L2_PIX_FMT_YUYV ∧
    xvip_get_format_by_code 0 = Except.error (-EINVAL) ∧
    xvip_get_format_by_fourcc V4L2_PIX_FMT_YUYV ∈ xvip_video_formats := by
  have h := format_by_fourcc_total_fallback_nv12 0 0 (by decide) (by decide)
  exact ⟨h.2.1, h.2.2.1, h.2.2.2, h.1 V4L2_PIX_FMT_YUYV⟩

/-- The mask `BIT n` has exactly bit `n` set. -/
theorem testBit_BIT (n t : Nat) : Nat.testBit (BIT n) t ↔ t = n := by
  unfold BIT
  rw [Nat.shiftLeft_eq, one_mul]
  rcases eq_or_ne t n with h | h
  · subst h; simp [Nat.testBit_two_pow_self]
  · simp [Nat.testBit_two_pow_of_ne (Ne.symm h), h]

/-- Bit content of the `streams[p] |= v` update. -/
theorem testBit_updOr (s : Nat → Nat) (p v q t : Nat) :
    Nat.testBit (updOr s p v q) t ↔
      Nat.testBit (s q) t ∨ (q = p ∧ Nat.testBit v t) := by
  unfold updOr
  rcases eq_or_ne q p with h | h
  · subst h; simp [Nat.testBit_or]
  · simp [h]

/-- Bit content of one `for_each_active_route` iteration: a stream `(p, t)`
is marked afterwards iff it was already marked or the route selects it. -/
theorem testBit_collectRouteStep (pad streams_mask : Nat)
    (r : V4l2SubdevRoute) (s : Nat → Nat) (p t : Nat) :
    Nat.testBit (collectRouteStep pad streams_mask r s p) t ↔
      Nat.testBit (s p) t ∨ routeSelects pad streams_mask r p t := by
  unfold collectRouteStep routeSelects
  by_cases h1 : r.sink_pad = pad ∧ Nat.testBit streams_mask r.sink_stream <;>
    by_cases h2 : r.source_pad = pad ∧ Nat.testBit streams_mask r.source_stream <;>
    simp [h1, h2, testBit_updOr, testBit_BIT] <;>
    tauto

/-- Bit content of the route scan, generalised over the accumulator. -/
theorem testBit_collectRouted_generalized (pad streams_mask : Nat)
    (routes : List V4l2SubdevRoute) :
    ∀ (s0 : Nat → Nat) (p t : Nat),
    Nat.testBit ((routes.foldl
        (fun s r => if routeActive r then collectRouteStep pad streams_mask r s
                    else s) s0) p) t ↔
      Nat.testBit (s0 p) t ∨
        ∃ r ∈ routes, routeActive r ∧ routeSelects pad streams_mask r p t := by
  induction routes with
  | nil => intro s0 p t; simp
  | cons r rs ih =>
    intro s0 p t
    simp only [List.foldl_cons]
    cases hr : routeActive r
    · rw [if_neg (by simp [hr]), ih]
      simp [hr]
    · rw [if_pos (by simp [hr]), ih]
      simp [hr, testBit_collectRouteStep]
      tauto

/-- The legacy pad scan, generalised over the iteration bound and the
accumulator: index `i` holds `streams_mask` after scanning pads `0..m-1`
iff `i < m` and pad `i` passes the XOR polarity test, and the accumulator's
value otherwise. -/
theorem collectLegacy_fold (fl : List Nat) (pad streams_mask : Nat) (m : Nat) :
    ∀ (s0 : Nat → Nat) (i : Nat),
    ((List.range m).foldl
      (fun s j =>
        if (fl.getD pad 0) ^^^ (fl.getD j 0) =
            (MEDIA_PAD_FL_SINK ||| MEDIA_PAD_FL_SOURCE) then
          fun q => if q = j then streams_mask else s q
        else s) s0) i =
      if i < m ∧ (fl.getD pad 0) ^^^ (fl.getD i 0) =
          (MEDIA_PAD_FL_SINK ||| MEDIA_PAD_FL_SOURCE) then streams_mask
      else s0 i := by
  induction m with
  | zero => intro s0 i; simp
  | succ m ih =>
    intro s0 i
    rw [List.range_succ, List.foldl_append]
    simp only [List.foldl_cons, List.foldl_nil]
    by_cases hc : (fl.getD pad 0) ^^^ (fl.getD m 0) =
        (MEDIA_PAD_FL_SINK ||| MEDIA_PAD_FL_SOURCE)
    · rw [if_pos hc]
      by_cases him : i = m
      · subst him
        rw [if_pos (⟨Nat.lt_succ_self i, hc⟩ :
          i < i + 1 ∧ (fl.getD pad 0) ^^^ (fl.getD i 0) =
            (MEDIA_PAD_FL_SINK ||| MEDIA_PAD_FL_SOURCE))]
        simp
      · simp only [if_neg him]
        rw [ih s0 i]
        refine if_congr ?_ rfl rfl
        constructor
        · rintro ⟨h1, h2⟩; exact ⟨by omega, h2⟩
        · rintro ⟨h1, h2⟩; exact ⟨by omega, h2⟩
    · rw [if_neg hc]
      rw [ih s0 i]
      by_cases him : i = m
      · subst him
        rw [if_neg (fun h => hc h.2), if_neg (fun h => hc h.2)]
      · refine if_congr ?_ rfl rfl
        constructor
        · rintro ⟨h1, h2⟩; exact ⟨by omega, h2⟩
        · rintro ⟨h1, h2⟩; exact ⟨by omega, h2⟩

/-- The legacy collection in closed form. -/
theorem collectLegacy_eq (fl : List Nat) (pad streams_mask i : Nat) :
    collectLegacy fl pad streams_mask i =
      if i < fl.length ∧ (fl.getD pad 0) ^^^ (fl.getD i 0) =
          (MEDIA_PAD_FL_SINK ||| MEDIA_PAD_FL_SOURCE) then streams_mask
      else 0 :=
  collectLegacy_fold fl pad streams_mask fl.length (fun _ => 0) i

/-- For pad flags that are exactly SINK or SOURCE (as `xvip_device_init`
creates them), the XOR test of the legacy scan holds iff the two flags
differ, i.e. the pads have opposite polarity. -/
theorem xor_flags_eq_iff_ne (a b : Nat)
    (ha : a = MEDIA_PAD_FL_SINK ∨ a = MEDIA_PAD_FL_SOURCE)
    (hb : b = MEDIA_PAD_FL_SINK ∨ b = MEDIA_PAD_FL_SOURCE) :
    (a ^^^ b = (MEDIA_PAD_FL_SINK ||| MEDIA_PAD_FL_SOURCE)) ↔ a ≠ b := by
  rcases ha with rfl | rfl <;> rcases hb with rfl | rfl <;> decide

/-- C6: the set of remote enable/disable calls selected by a propagation
request on (entity, pad, streams_mask) is exactly determined by:
(1) with a routing table in effect, a stream `(p, t)` is collected iff some
active route routes `(pad, s)` with `s` in `streams_mask` to `(p, t)`
(sink→source or source→sink); (2) without a routing table (legacy), under
the pad-flag well-formedness established by `xvip_device_init` (every pad is
exactly SINK or SOURCE), a pad is collected with the full `streams_mask`
iff it exists and has the opposite polarity of `pad`; (3) a call is in the
selected list iff some link of the entity is enabled, is a data link, leads
to a remote V4L2 subdev (DMA video nodes are skipped), and has a non-empty
collection on its local pad — the call carrying that collection to the
remote pad. And when every selected call succeeds, the calls issued by
`__xvip_enable_connected_streams` are exactly the selected ones, in order. -/
theorem connected_calls_characterization :
    (∀ (pad streams_mask : Nat) (routes : List V4l2SubdevRoute) (p t : Nat),
      Nat.testBit (collectRouted pad streams_mask routes p) t ↔
        ∃ r ∈ routes, routeActive r ∧ routeSelects pad streams_mask r p t) ∧
    (∀ (fl : List Nat) (pad streams_mask i : Nat),
      pad < fl.length →
      (∀ f ∈ fl, f = MEDIA_PAD_FL_SINK ∨ f = MEDIA_PAD_FL_SOURCE) →
      collectLegacy fl pad streams_mask i =
        if i < fl.length ∧ fl.getD i 0 ≠ fl.getD pad 0 then streams_mask
        else 0) ∧
    (∀ (sd : XvipSubdev) (state : Option (List V4l2SubdevRoute))
       (pad streams_mask : Nat) (rc : RemoteCall),
      rc ∈ __xvip_connected_calls sd state pad streams_mask ↔
        ∃ l ∈ sd.links,
          l.flags &&& MEDIA_LNK_FL_ENABLED ≠ 0 ∧
          l.flags &&& MEDIA_LNK_FL_LINK_TYPE = MEDIA_LNK_FL_DATA_LINK ∧
          l.remoteIsSubdev = true ∧
          collectStreams sd state pad streams_mask l.localPad ≠ 0 ∧
          rc = ⟨l.remoteId, l.remotePad,
                collectStreams sd state pad streams_mask l.localPad⟩) ∧
    (∀ (sd : XvipSubdev) (state : Option (List V4l2SubdevRoute))
       (pad streams_mask : Nat) (remote : RemoteOracle) (enable : Bool),
      (∀ c ∈ __xvip_connected_calls sd state pad streams_mask,
        remote enable c.ent c.pad c.streams = 0) →
      __xvip_enable_connected_streams sd state pad streams_mask enable remote =
        (0, (__xvip_connected_calls sd state pad streams_mask).map
              (remoteEvent enable))) := by
  refine ⟨?_, ?_, ?_, ?_⟩
  · intro pad streams_mask routes p t
    unfold collectRouted
    rw [testBit_collectRouted_generalized]
    simp
  · intro fl pad streams_mask i hpad hwf
    rw [collectLegacy_eq]
    refine if_congr (and_congr_right fun hi => ?_) rfl rfl
    have hmemi : fl.getD i 0 ∈ fl := by
      rw [List.getD_eq_getElem fl 0 hi]
      exact List.getElem_mem hi
    have hmemp : fl.getD pad 0 ∈ fl := by
      rw [List.getD_eq_getElem fl 0 hpad]
      exact List.getElem_mem hpad
    rw [xor_flags_eq_iff_ne _ _ (hwf _ hmemp) (hwf _ hmemi)]
    exact ne_comm
  · intro sd state pad streams_mask rc
    unfold __xvip_connected_calls
    rw [List.mem_filterMap]
    have key : ∀ l : MediaLink,
        ((if l.flags &&& MEDIA_LNK_FL_ENABLED = 0 then none
          else if l.flags &&& MEDIA_LNK_FL_LINK_TYPE ≠ MEDIA_LNK_FL_DATA_LINK
          then none
          else if collectStreams sd state pad streams_mask l.localPad = 0
          then none
          else if ¬ l.remoteIsSubdev then none
          else some ⟨l.remoteId, l.remotePad,
                     collectStreams sd state pad streams_mask l.localPad⟩) =
          some rc) ↔
        (l.flags &&& MEDIA_LNK_FL_ENABLED ≠ 0 ∧
         l.flags &&& MEDIA_LNK_FL_LINK_TYPE = MEDIA_LNK_FL_DATA_LINK ∧
         l.remoteIsSubdev = true ∧
         collectStreams sd state pad streams_mask l.localPad ≠ 0 ∧
         rc = ⟨l.remoteId, l.remotePad,
               collectStreams sd state pad streams_mask l.localPad⟩) := by
      intro l
      by_cases c1 : l.flags &&& MEDIA_LNK_FL_ENABLED = 0 <;>
        by_cases c2 : l.flags &&& MEDIA_LNK_FL_LINK_TYPE =
            MEDIA_LNK_FL_DATA_LINK <;>
        by_cases c3 : collectStreams sd state pad streams_mask l.localPad = 0 <;>
        by_cases c4 : l.remoteIsSubdev <;>
        simp [c1, c2, c3, c4, eq_comm]
    simp only [key]
  · intro sd state pad streams_mask remote enable h
    unfold __xvip_enable_connected_streams
    exact runRemoteCalls_ok remote enable _ h

/-- Witness for C6: (1) with the one-route table `{(sink 0, stream 0) →
(source 1, stream 0)}` and request (pad 0, mask 1), stream 0 is collected on
pad 1; (2) legacy entity with pads [SINK, SOURCE]: pad 1 (opposite polarity
of pad 0) is collected with the full mask 5; (3) the enabled data link to
remote subdev 7 yields exactly the call (7, pad 0, streams 1); (4) with an
all-succeeding oracle, exactly that call is issued. -/
theorem connected_calls_characterization_witness :
    Nat.testBit (collectRouted 0 1 [⟨0, 0, 1, 0, 1⟩] 1) 0 ∧
    collectLegacy [MEDIA_PAD_FL_SINK, MEDIA_PAD_FL_SOURCE] 0 5 1 =
      (if 1 < 2 ∧ [MEDIA_PAD_FL_SINK, MEDIA_PAD_FL_SOURCE].getD 1 0 ≠
          [MEDIA_PAD_FL_SINK, MEDIA_PAD_FL_SOURCE].getD 0 0 then 5 else 0) ∧
    (⟨7, 0, 1⟩ : RemoteCall) ∈
      __xvip_connected_calls
        ⟨[MEDIA_PAD_FL_SINK, MEDIA_PAD_FL_SOURCE],
         [⟨MEDIA_LNK_FL_ENABLED, true, 1, 0, 7, true⟩], none, none⟩
        none 0 1 ∧
    __xvip_enable_connected_streams
        ⟨[MEDIA_PAD_FL_SINK, MEDIA_PAD_FL_SOURCE],
         [⟨MEDIA_LNK_FL_ENABLED, true, 1, 0, 7, true⟩], none, none⟩
        none 0 1 true (fun _ _ _ _ => 0) =
      (0, (__xvip_connected_calls
        ⟨[MEDIA_PAD_FL_SINK, MEDIA_PAD_FL_SOURCE],
         [⟨MEDIA_LNK_FL_ENABLED, true, 1, 0, 7, true⟩], none, none⟩
        none 0 1).map (remoteEvent true)) := by
  refine ⟨?_, ?_, ?_, ?_⟩
  · exact (connected_calls_characterization.1 0 1 [⟨0, 0, 1, 0, 1⟩] 1 0).mpr
      ⟨⟨0, 0, 1, 0, 1⟩, by decide, by decide, Or.inl (by decide)⟩
  · have h := connected_calls_characterization.2.1
      [MEDIA_PAD_FL_SINK, MEDIA_PAD_FL_SOURCE] 0 5 1 (by decide) (by decide)
    simpa using h
  · exact (connected_calls_characterization.2.2.1 _ none 0 1 ⟨7, 0, 1⟩).mpr
      ⟨⟨MEDIA_LNK_FL_ENABLED, true, 1, 0, 7, true⟩, by decide, by decide,
       by decide, by decide, by decide, by decide⟩
  · exact connected_calls_characterization.2.2.2 _ none 0 1 _ true
      (fun c _ => rfl)
